import Mathlib

/-!
Shallow embedding of the 2.5D wall renderer: vector primitives
(`Vector2`, `Vector3`, `rotateVector2`, `lerp`), the geometry model
(`Face`, `Mesh` with its `createCube` / `createRoom` factories), the
camera, and the `Renderer3D` pipeline (world transform, view transform,
max-depth sort key, stable depth sort, near-plane clipping, perspective
projection, quad draw calls).

Numbers are modelled as rationals.  The only transcendental ingredient,
`Math.cos` / `Math.sin` inside `rotateVector2`, is abstracted as a `Trig`
interpretation; concrete evaluations below only rotate by the angle `0`,
where any faithful interpretation satisfies `cos 0 = 1` and `sin 0 = 0`.

Canvas drawing is modelled by the list of quad draw calls the renderer
issues (one `DrawCall` per rasterized face, in issue order); the static
background painting of `clear` is identical for every scene and is not
part of that list.
-/

namespace Scaffold

/-- Planar vector, as in `utils/math.ts`. -/
structure Vector2 where
  x : ℚ
  y : ℚ
deriving DecidableEq

/-- Spatial vector, as in `utils/Vector3.ts`: `y` vertical (screen-down
positive), `z` depth (camera-forward positive). -/
structure Vector3 where
  x : ℚ
  y : ℚ
  z : ℚ
deriving DecidableEq

/-- An interpretation of `Math.cos` / `Math.sin`, the one ingredient of
the pipeline that is not rational arithmetic. -/
structure Trig where
  cos : ℚ → ℚ
  sin : ℚ → ℚ

/-- A concrete `Trig` interpretation used only to evaluate scenes whose
every rotation angle is `0`; it agrees with cosine and sine there
(`cos 0 = 1`, `sin 0 = 0`). -/
def trigZero : Trig where
  cos := fun _ => 1
  sin := fun _ => 0

/-- Function `rotateVector2` from `utils/math.ts`: rotate a 2D vector by an angle
(radians), via the standard rotation matrix. -/
def rotateVector2 (T : Trig) (v : Vector2) (angle : ℚ) : Vector2 :=
  let c := T.cos angle
  let s := T.sin angle
  ⟨v.x * c - v.y * s, v.x * s + v.y * c⟩

/-- Function `lerp` from `utils/math.ts`: linear interpolation. -/
def lerp (a b t : ℚ) : ℚ :=
  a + (b - a) * t

/-- The epsilon floor `Math.max(this.z, 0.001)` applied to the depth
before the perspective division in `Vector3.project`. -/
def Vector3.safeZ (v : Vector3) : ℚ :=
  max v.z (1 / 1000)

/-- Method `Vector3.project` from `utils/Vector3.ts`: perspective projection to
screen coordinates, dividing by the epsilon-floored depth. -/
def Vector3.project (v : Vector3) (focalLength : ℚ) (screenCenter : Vector2) : Vector2 :=
  let scale := focalLength / v.safeZ
  ⟨screenCenter.x + v.x * scale, screenCenter.y + v.y * scale⟩

/-- A wall segment: two floor points and a fill color, as in `Mesh.ts`. -/
structure Face where
  p1 : Vector3
  p2 : Vector3
  color : String
deriving DecidableEq

/-- A positioned, yaw-rotated collection of faces, as in `Mesh.ts`.
`scale` is carried by the data model but never read by the renderer. -/
structure Mesh where
  position : Vector3
  rotation : ℚ
  scale : Vector3
  faces : List Face
deriving DecidableEq

/-- The default state of a fresh `new Mesh()`: origin position, zero
rotation, unit scale, no faces. -/
def Mesh.new : Mesh where
  position := ⟨0, 0, 0⟩
  rotation := 0
  scale := ⟨1, 1, 1⟩
  faces := []

/-- JavaScript `s || d` on an optional string: the default replaces both
a missing entry and the (falsy) empty string. -/
def jsOrElse (s : Option String) (d : String) : String :=
  match s with
  | none => d
  | some c => if c = "" then d else c

/-- Factory `Mesh.createCube` from `Mesh.ts`: four outward-facing walls forming a
square pillar centered at the local origin. -/
def Mesh.createCube (size : ℚ) (color : String) : Mesh :=
  let half := size / 2
  { Mesh.new with faces :=
      [ ⟨⟨-half, 0, half⟩, ⟨half, 0, half⟩, color⟩,
        ⟨⟨half, 0, half⟩, ⟨half, 0, -half⟩, color⟩,
        ⟨⟨half, 0, -half⟩, ⟨-half, 0, -half⟩, color⟩,
        ⟨⟨-half, 0, -half⟩, ⟨-half, 0, half⟩, color⟩ ] }

/-- Factory `Mesh.createRoom` from `Mesh.ts`: four inward-facing walls; wall
colors are taken from `wallColors[0..3]`, each falling back (JavaScript
`||`) to the first color, which itself falls back to `'#888'`. -/
def Mesh.createRoom (width depth : ℚ) (wallColors : List String) : Mesh :=
  let halfW := width / 2
  let halfD := depth / 2
  let c1 := jsOrElse (wallColors[0]?) "#888"
  let c2 := jsOrElse (wallColors[1]?) c1
  let c3 := jsOrElse (wallColors[2]?) c1
  let c4 := jsOrElse (wallColors[3]?) c1
  { Mesh.new with faces :=
      [ ⟨⟨-halfW, 0, -halfD⟩, ⟨halfW, 0, -halfD⟩, c1⟩,
        ⟨⟨halfW, 0, -halfD⟩, ⟨halfW, 0, halfD⟩, c2⟩,
        ⟨⟨halfW, 0, halfD⟩, ⟨-halfW, 0, halfD⟩, c3⟩,
        ⟨⟨-halfW, 0, halfD⟩, ⟨-halfW, 0, -halfD⟩, c4⟩ ] }

/-- Viewer pose, as in `Camera.ts`. -/
structure Camera where
  position : Vector3
  rotation : ℚ
  fov : ℚ
deriving DecidableEq

/-- Constant `NEAR_PLANE` of `Renderer3D`. -/
def NEAR_PLANE : ℚ := 1

/-- Constant `CEILING_Y` of `Renderer3D`. -/
def CEILING_Y : ℚ := -20

/-- Constant `FLOOR_Y` of `Renderer3D`. -/
def FLOOR_Y : ℚ := 20

/-- Renderer-internal face record after the view transform, as in
`Renderer3D.ts`. -/
structure RenderableFace where
  p1 : Vector3
  p2 : Vector3
  color : String
  sortDepth : ℚ
deriving DecidableEq

/-- One quad rasterization: the four projected screen corners in path
order and the fill color, as issued by `Renderer3D.drawFace`. -/
structure DrawCall where
  p1Top : Vector2
  p2Top : Vector2
  p2Bottom : Vector2
  p1Bottom : Vector2
  color : String
deriving DecidableEq

/-- Method `Renderer3D.transformPointToWorld`: rotate the local `(x, z)` pair by
the mesh yaw, then translate by the mesh position. -/
def transformPointToWorld (T : Trig) (p : Vector3) (mesh : Mesh) : Vector3 :=
  let rot := rotateVector2 T ⟨p.x, p.z⟩ mesh.rotation
  ⟨rot.x + mesh.position.x, p.y + mesh.position.y, rot.y + mesh.position.z⟩

/-- Method `Renderer3D.transformPointToView`: translate by the negative camera
position, then rotate `(x, z)` by the negative camera yaw. -/
def transformPointToView (T : Trig) (p : Vector3) (camera : Camera) : Vector3 :=
  let relX := p.x - camera.position.x
  let relY := p.y - camera.position.y
  let relZ := p.z - camera.position.z
  let angle := -camera.rotation
  let rot := rotateVector2 T ⟨relX, relZ⟩ angle
  ⟨rot.x, relY, rot.y⟩

/-- The renderable record `Renderer3D.render` pushes for one face: both
endpoints through world and view transforms, sort key the maximum of the
two view depths. -/
def toRenderable (T : Trig) (camera : Camera) (mesh : Mesh) (face : Face) : RenderableFace :=
  let p1World := transformPointToWorld T face.p1 mesh
  let p2World := transformPointToWorld T face.p2 mesh
  let p1View := transformPointToView T p1World camera
  let p2View := transformPointToView T p2World camera
  { p1 := p1View, p2 := p2View, color := face.color,
    sortDepth := max p1View.z p2View.z }

/-- Stage 1 of `Renderer3D.render`: every face of every mesh of the
scene, in scene order, as renderable records. -/
def transformedFaces (T : Trig) (scene : List Mesh) (camera : Camera) : List RenderableFace :=
  scene.flatMap fun mesh => mesh.faces.map (toRenderable T camera mesh)

/-- The order in which `Renderer3D.render` sorts faces: the comparator
`(a, b) => b.sortDepth - a.sortDepth` puts `a` no later than `b` exactly
when `b.sortDepth ≤ a.sortDepth` (descending by sort key). -/
def faceLE (a b : RenderableFace) : Prop :=
  b.sortDepth ≤ a.sortDepth

instance : DecidableRel faceLE := fun a b =>
  inferInstanceAs (Decidable (b.sortDepth ≤ a.sortDepth))

instance : IsTotal RenderableFace faceLE :=
  ⟨fun a b => le_total b.sortDepth a.sortDepth⟩

instance : IsTrans RenderableFace faceLE :=
  ⟨fun _ _ _ hab hbc => le_trans hbc hab⟩

/-- Stage 2 of `Renderer3D.render`: the stable descending-by-`sortDepth`
sort (`Array.prototype.sort` is stable, so records with equal keys keep
scene order; a stable insertion sort realizes the same ordering). -/
def sortFaces (l : List RenderableFace) : List RenderableFace :=
  l.insertionSort faceLE

/-- The clipping stage of `Renderer3D.drawFace`: drop the face when both
view endpoints are behind the near plane (both `z < NEAR_PLANE`); when
exactly one is, replace it by the interpolated point
`(lerp v1.x v2.x t, 0, NEAR_PLANE)` with
`t = (NEAR_PLANE - v1.z) / (v2.z - v1.z)`. -/
def clipEndpoints (p1 p2 : Vector3) : Option (Vector3 × Vector3) :=
  if p1.z < NEAR_PLANE ∧ p2.z < NEAR_PLANE then
    none
  else if p1.z < NEAR_PLANE ∨ p2.z < NEAR_PLANE then
    let t := (NEAR_PLANE - p1.z) / (p2.z - p1.z)
    let newV : Vector3 := ⟨lerp p1.x p2.x t, 0, NEAR_PLANE⟩
    if p1.z < NEAR_PLANE then some (newV, p2) else some (p1, newV)
  else
    some (p1, p2)

/-- Method `Renderer3D.drawFace`: clip against the near plane, then project the
two endpoints at `FLOOR_Y` and `CEILING_Y` heights and issue the quad
draw call; `none` when the face is dropped by clipping. -/
def drawFace (face : RenderableFace) (fov : ℚ) (center : Vector2) : Option DrawCall :=
  match clipEndpoints face.p1 face.p2 with
  | none => none
  | some (v1, v2) =>
      some
        { p1Top := Vector3.project ⟨v1.x, CEILING_Y, v1.z⟩ fov center,
          p2Top := Vector3.project ⟨v2.x, CEILING_Y, v2.z⟩ fov center,
          p2Bottom := Vector3.project ⟨v2.x, FLOOR_Y, v2.z⟩ fov center,
          p1Bottom := Vector3.project ⟨v1.x, FLOOR_Y, v1.z⟩ fov center,
          color := face.color }

/-- Method `Renderer3D.render`: transform every face to view space, sort
back-to-front by `sortDepth`, then clip, project and draw each face; the
result is the sequence of quad draw calls in issue order. -/
def render (T : Trig) (scene : List Mesh) (camera : Camera) (width height : ℚ) : List DrawCall :=
  let transformed := transformedFaces T scene camera
  let sorted := sortFaces transformed
  let center : Vector2 := ⟨width / 2, height / 2⟩
  sorted.filterMap fun face => drawFace face camera.fov center

/-- A mesh equal to the given one except that its (renderer-unused)
`scale` field is reset to the unit scale. -/
def eraseScale (m : Mesh) : Mesh :=
  { m with scale := ⟨1, 1, 1⟩ }

/-- Camera at the origin, yaw `0`, focal length `400` (the constructor
defaults of `Camera.ts`). -/
def cam0 : Camera :=
  ⟨⟨0, 0, 0⟩, 0, 400⟩

/-- A single-face mesh whose wall spans view depths `-100` to `100` when
seen from `cam0`. -/
def wallA : Mesh :=
  { Mesh.new with faces := [⟨⟨-5, 0, -100⟩, ⟨5, 0, 100⟩, "#a"⟩] }

/-- A single-face mesh whose wall sits at view depth `50` when seen from
`cam0`. -/
def wallB : Mesh :=
  { Mesh.new with faces := [⟨⟨-5, 0, 50⟩, ⟨5, 0, 50⟩, "#b"⟩] }

/-- The view-space record that `wallA`'s face becomes under `cam0`. -/
def faceAview : RenderableFace :=
  ⟨⟨-5, 0, -100⟩, ⟨5, 0, 100⟩, "#a", 100⟩

/-- A red wall at view depth `50` (used to exhibit ties in `sortDepth`). -/
def wallRed : Mesh :=
  { Mesh.new with faces := [⟨⟨-5, 0, 50⟩, ⟨5, 0, 50⟩, "#a00"⟩] }

/-- A green wall, also at view depth `50`, distinct from `wallRed`. -/
def wallGrn : Mesh :=
  { Mesh.new with faces := [⟨⟨-6, 0, 50⟩, ⟨6, 0, 50⟩, "#0a0"⟩] }

/-- A view-space face fully in front of the near plane, at depth `50`. -/
def faceW : RenderableFace :=
  ⟨⟨-5, 0, 50⟩, ⟨5, 0, 50⟩, "#f00", 50⟩

/-- The draw call `drawFace` issues for `faceW` at `fov = 400` on an
`800 × 600` surface. -/
def callW : DrawCall :=
  ⟨⟨360, 140⟩, ⟨440, 140⟩, ⟨440, 460⟩, ⟨360, 460⟩, "#f00"⟩

theorem lerp_between (a b t : ℚ) (h0 : 0 ≤ t) (h1 : t ≤ 1) :
    min a b ≤ lerp a b t ∧ lerp a b t ≤ max a b := by
  rcases le_total a b with hab | hab
  · rw [min_eq_left hab, max_eq_right hab]
    unfold lerp
    constructor <;> nlinarith
  · rw [min_eq_right hab, max_eq_left hab]
    unfold lerp
    constructor <;> nlinarith

theorem clipEndpoints_z_ge {p q v1 v2 : Vector3}
    (h : clipEndpoints p q = some (v1, v2)) :
    NEAR_PLANE ≤ v1.z ∧ NEAR_PLANE ≤ v2.z := by
  by_cases h1 : p.z < NEAR_PLANE <;> by_cases h2 : q.z < NEAR_PLANE
  · simp [clipEndpoints, h1, h2] at h
  · simp only [clipEndpoints, h1, h2, and_false, true_or, or_false, if_true, if_false,
      ite_true, ite_false, Option.some.injEq, Prod.mk.injEq] at h
    obtain ⟨h3, h4⟩ := h
    subst h3; subst h4
    exact ⟨le_refl _, not_lt.mp h2⟩
  · simp only [clipEndpoints, h1, h2, false_and, or_true, false_or, if_true, if_false,
      ite_true, ite_false, Option.some.injEq, Prod.mk.injEq] at h
    obtain ⟨h3, h4⟩ := h
    subst h3; subst h4
    exact ⟨not_lt.mp h1, le_refl _⟩
  · simp only [clipEndpoints, h1, h2, and_self, or_self, if_false, ite_false,
      Option.some.injEq, Prod.mk.injEq] at h
    obtain ⟨h3, h4⟩ := h
    subst h3; subst h4
    exact ⟨not_lt.mp h1, not_lt.mp h2⟩

theorem project_y_bounds (x z fov cx cy : ℚ) (hz : NEAR_PLANE ≤ z) (hfov : 0 < fov) :
    cy ≤ (Vector3.project ⟨x, FLOOR_Y, z⟩ fov ⟨cx, cy⟩).y ∧
    (Vector3.project ⟨x, CEILING_Y, z⟩ fov ⟨cx, cy⟩).y ≤ cy := by
  have hz' : (1 : ℚ) ≤ z := by simpa [NEAR_PLANE] using hz
  have hz1 : (1 : ℚ) / 1000 ≤ z := by linarith
  have hzpos : (0 : ℚ) < z := by linarith
  have hscale : 0 < fov / z := div_pos hfov hzpos
  constructor <;>
    simp only [Vector3.project, Vector3.safeZ, FLOOR_Y, CEILING_Y, max_eq_left hz1] <;>
    nlinarith

/-- C2: for every face with exactly one view-space endpoint behind the
near plane (`z < NEAR_PLANE`), the behind-plane endpoint is replaced by
the point whose `x` is `lerp` of the two endpoints' `x` at parameter
`t = (NEAR_PLANE - v1.z) / (v2.z - v1.z)`, whose `z` is exactly
`NEAR_PLANE` and whose `y` is `0`, while the other endpoint is left
unchanged; for `p1.z = -10`, `p2.z = 10` the blend parameter is
`11/20 = 0.55`. -/
theorem clip_single_behind_interpolates :
    (∀ v1 v2 : Vector3, v1.z < NEAR_PLANE → NEAR_PLANE ≤ v2.z →
        clipEndpoints v1 v2 =
          some (⟨lerp v1.x v2.x ((NEAR_PLANE - v1.z) / (v2.z - v1.z)), 0, NEAR_PLANE⟩, v2)) ∧
    (∀ v1 v2 : Vector3, NEAR_PLANE ≤ v1.z → v2.z < NEAR_PLANE →
        clipEndpoints v1 v2 =
          some (v1, ⟨lerp v1.x v2.x ((NEAR_PLANE - v1.z) / (v2.z - v1.z)), 0, NEAR_PLANE⟩)) ∧
    (NEAR_PLANE - (-10 : ℚ)) / ((10 : ℚ) - (-10 : ℚ)) = 11 / 20 ∧
    clipEndpoints ⟨0, 0, -10⟩ ⟨20, 0, 10⟩ = some (⟨11, 0, 1⟩, ⟨20, 0, 10⟩) := by
  refine ⟨?_, ?_, by norm_num [NEAR_PLANE], ?_⟩
  · intro v1 v2 h1 h2
    have h2' : ¬ v2.z < NEAR_PLANE := not_lt.mpr h2
    simp [clipEndpoints, h1, h2']
  · intro v1 v2 h1 h2
    have h1' : ¬ v1.z < NEAR_PLANE := not_lt.mpr h1
    simp [clipEndpoints, h1', h2]
  · norm_num [clipEndpoints, NEAR_PLANE, lerp]

/-- Witness for C2 at the spec's concrete clip example
(`p1.z = -10`, `p2.z = 10`). -/
theorem clip_single_behind_interpolates_witness :
    ((⟨0, 0, -10⟩ : Vector3).z < NEAR_PLANE ∧ NEAR_PLANE ≤ (⟨20, 0, 10⟩ : Vector3).z) ∧
    clipEndpoints ⟨0, 0, -10⟩ ⟨20, 0, 10⟩ =
      some (⟨lerp 0 20 ((NEAR_PLANE - (-10)) / (10 - (-10))), 0, NEAR_PLANE⟩, ⟨20, 0, 10⟩) :=
  ⟨⟨by norm_num [NEAR_PLANE], by norm_num [NEAR_PLANE]⟩,
   clip_single_behind_interpolates.1 ⟨0, 0, -10⟩ ⟨20, 0, 10⟩
     (by norm_num [NEAR_PLANE]) (by norm_num [NEAR_PLANE])⟩

/-- C3: a face whose two view-space endpoints both have `z < NEAR_PLANE`
is dropped: `drawFace` produces no draw call for it. -/
theorem drawFace_drops_fully_behind (face : RenderableFace) (fov : ℚ) (center : Vector2)
    (h1 : face.p1.z < NEAR_PLANE) (h2 : face.p2.z < NEAR_PLANE) :
    drawFace face fov center = none := by
  simp [drawFace, clipEndpoints, h1, h2]

/-- Witness for C3: a concrete face entirely behind the near plane. -/
theorem drawFace_drops_fully_behind_witness :
    ((⟨⟨0, 0, 0⟩, ⟨1, 0, 1 / 2⟩, "#c", 1 / 2⟩ : RenderableFace).p1.z < NEAR_PLANE ∧
     (⟨⟨0, 0, 0⟩, ⟨1, 0, 1 / 2⟩, "#c", 1 / 2⟩ : RenderableFace).p2.z < NEAR_PLANE) ∧
    drawFace ⟨⟨0, 0, 0⟩, ⟨1, 0, 1 / 2⟩, "#c", 1 / 2⟩ 400 ⟨400, 300⟩ = none :=
  ⟨⟨by norm_num [NEAR_PLANE], by norm_num [NEAR_PLANE]⟩,
   drawFace_drops_fully_behind ⟨⟨0, 0, 0⟩, ⟨1, 0, 1 / 2⟩, "#c", 1 / 2⟩ 400 ⟨400, 300⟩
     (by norm_num [NEAR_PLANE]) (by norm_num [NEAR_PLANE])⟩

/-- C4: `project` maps `(x, y, z)` with focal length `f` and screen
center `c` to `(c.x + x * f / max z 0.001, c.y + y * f / max z 0.001)`;
for `z ≥ 1` and `f = 1` this is `(c.x + x / z, c.y + y / z)`, and
`(100, 50, 2)` with center `(400, 300)` projects to `(450, 325)`. -/
theorem project_formula :
    (∀ (v : Vector3) (f : ℚ) (c : Vector2),
        Vector3.project v f c =
          ⟨c.x + v.x * f / max v.z (1 / 1000), c.y + v.y * f / max v.z (1 / 1000)⟩) ∧
    (∀ (v : Vector3) (c : Vector2), 1 ≤ v.z →
        Vector3.project v 1 c = ⟨c.x + v.x / v.z, c.y + v.y / v.z⟩) ∧
    Vector3.project ⟨100, 50, 2⟩ 1 ⟨400, 300⟩ = ⟨450, 325⟩ := by
  refine ⟨?_, ?_, by norm_num [Vector3.project, Vector3.safeZ]⟩
  · intro v f c
    simp [Vector3.project, Vector3.safeZ, mul_div_assoc]
  · intro v c hz
    have hmax : max v.z (1 / 1000 : ℚ) = v.z := max_eq_left (by linarith)
    simp only [Vector3.project, Vector3.safeZ, hmax, mul_one_div]

/-- Witness for C4 at the spec's concrete example `(100, 50, 2)`. -/
theorem project_formula_witness :
    (1 : ℚ) ≤ (⟨100, 50, 2⟩ : Vector3).z ∧
    Vector3.project ⟨100, 50, 2⟩ 1 ⟨400, 300⟩ =
      ⟨400 + 100 / 2, 300 + 50 / 2⟩ :=
  ⟨by norm_num, project_formula.2.1 ⟨100, 50, 2⟩ ⟨400, 300⟩ (by norm_num)⟩

/-- C5: the divisor `safeZ = max z 0.001` used by `project` is at least
`0.001` and strictly positive for every input, including `z = 0` and
negative `z`, so the perspective division is total (never a division by
a value at or below zero). -/
theorem project_divisor_epsilon_floor :
    (∀ v : Vector3, 1 / 1000 ≤ v.safeZ ∧ 0 < v.safeZ) ∧
    Vector3.safeZ ⟨0, 0, 0⟩ = 1 / 1000 ∧
    Vector3.safeZ ⟨7, -3, -5⟩ = 1 / 1000 ∧
    (∀ (v : Vector3) (f : ℚ) (c : Vector2),
        Vector3.project v f c =
          ⟨c.x + v.x * (f / v.safeZ), c.y + v.y * (f / v.safeZ)⟩) := by
  refine ⟨fun v => ⟨le_max_right _ _, lt_of_lt_of_le (by norm_num) (le_max_right _ _)⟩,
    ?_, ?_, fun v f c => rfl⟩
  · simp [Vector3.safeZ]
  · rw [Vector3.safeZ]
    norm_num

/-- C1: in every frame, each face's sort key is the maximum of its two
view-space endpoint depths; the faces are rasterized in the stable-sorted
order, which is non-increasing in that key (farthest first); and for the
spec's concrete scene — wall A with view depths `-100` and `100`
(`sortDepth = 100`) listed after object B at view depth `50`
(`sortDepth = 50`) — A's draw call is issued before B's. -/
theorem render_sorts_by_max_depth :
    (∀ (T : Trig) (scene : List Mesh) (camera : Camera) (f : RenderableFace),
        f ∈ transformedFaces T scene camera → f.sortDepth = max f.p1.z f.p2.z) ∧
    (∀ (T : Trig) (scene : List Mesh) (camera : Camera),
        List.Sorted faceLE (sortFaces (transformedFaces T scene camera))) ∧
    (∀ (T : Trig) (scene : List Mesh) (camera : Camera) (w h : ℚ),
        render T scene camera w h =
          (sortFaces (transformedFaces T scene camera)).filterMap
            fun face => drawFace face camera.fov ⟨w / 2, h / 2⟩) ∧
    (render trigZero [wallB, wallA] cam0 800 600).map DrawCall.color = ["#a", "#b"] := by
  refine ⟨?_, ?_, fun T scene camera w h => rfl, ?_⟩
  · intro T scene camera f hf
    simp only [transformedFaces, List.mem_flatMap, List.mem_map] at hf
    obtain ⟨mesh, _, face, _, rfl⟩ := hf
    rfl
  · intro T scene camera
    exact List.sorted_insertionSort faceLE _
  · norm_num [render, transformedFaces, toRenderable, transformPointToWorld,
      transformPointToView, rotateVector2, trigZero, Mesh.new, wallA, wallB, cam0,
      sortFaces, faceLE, drawFace, clipEndpoints, NEAR_PLANE, CEILING_Y, FLOOR_Y,
      lerp, Vector3.project, Vector3.safeZ, List.filterMap_cons, List.filterMap_nil]

/-- Witness for C1: the concrete view-space record of wall A is among
the transformed faces and its sort key is `max (-100) 100 = 100`. -/
theorem render_sorts_by_max_depth_witness :
    faceAview ∈ transformedFaces trigZero [wallA] cam0 ∧
    faceAview.sortDepth = max faceAview.p1.z faceAview.p2.z := by
  have hmem : faceAview ∈ transformedFaces trigZero [wallA] cam0 := by
    have : transformedFaces trigZero [wallA] cam0 = [faceAview] := by
      norm_num [transformedFaces, toRenderable, transformPointToWorld,
        transformPointToView, rotateVector2, trigZero, Mesh.new, wallA, cam0, faceAview]
    rw [this]
    exact List.mem_singleton.mpr rfl
  exact ⟨hmem, render_sorts_by_max_depth.1 trigZero [wallA] cam0 faceAview hmem⟩

/-- C6 counterexample: scene order is not irrelevant to the rendered
sequence.  `wallRed` and `wallGrn` both have `sortDepth = 50`; the sort
comparator returns `0` on the tie and the (stable) sort keeps scene
order, so swapping the two meshes swaps the two draw calls. -/
theorem render_depends_on_scene_order :
    ([wallRed, wallGrn] : List Mesh).Perm [wallGrn, wallRed] ∧
    render trigZero [wallRed, wallGrn] cam0 800 600 ≠
      render trigZero [wallGrn, wallRed] cam0 800 600 := by
  constructor
  · exact List.Perm.swap wallGrn wallRed []
  · norm_num [render, transformedFaces, toRenderable, transformPointToWorld,
      transformPointToView, rotateVector2, trigZero, Mesh.new, wallRed, wallGrn, cam0,
      sortFaces, faceLE, drawFace, clipEndpoints, NEAR_PLANE, CEILING_Y, FLOOR_Y,
      lerp, Vector3.project, Vector3.safeZ, List.filterMap_cons, List.filterMap_nil]

/-- C6 (amended): for every scene, camera and permutation of the scene
list, `render` produces the same draw calls up to order — the output for
the permuted scene is a permutation of the original output. -/
theorem render_perm_of_scene_perm (T : Trig) (s1 s2 : List Mesh) (camera : Camera)
    (w h : ℚ) (hp : s1.Perm s2) :
    (render T s1 camera w h).Perm (render T s2 camera w h) := by
  have ht : (transformedFaces T s1 camera).Perm (transformedFaces T s2 camera) :=
    hp.flatMap_right _
  have hs : (sortFaces (transformedFaces T s1 camera)).Perm
      (sortFaces (transformedFaces T s2 camera)) :=
    ((List.perm_insertionSort faceLE _).trans ht).trans
      (List.perm_insertionSort faceLE _).symm
  exact hs.filterMap _

/-- Witness for C6 (amended) at the concrete tied scene. -/
theorem render_perm_of_scene_perm_witness :
    ([wallRed, wallGrn] : List Mesh).Perm [wallGrn, wallRed] ∧
    (render trigZero [wallRed, wallGrn] cam0 800 600).Perm
      (render trigZero [wallGrn, wallRed] cam0 800 600) :=
  ⟨List.Perm.swap wallGrn wallRed [],
   render_perm_of_scene_perm trigZero [wallRed, wallGrn] [wallGrn, wallRed] cam0 800 600
     (List.Perm.swap wallGrn wallRed [])⟩

/-- C7 counterexample: with `wallColors = [""]` (fewer than 4 entries,
first supplied color the empty string), every wall gets the gray
`'#888'` rather than the first supplied color, because the JavaScript
`||` fallback also treats the empty string as missing. -/
theorem createRoom_empty_string_counterexample :
    ([""] : List String).length < 4 ∧
    (Mesh.createRoom 2 2 [""]).faces.map Face.color = ["#888", "#888", "#888", "#888"] ∧
    ("#888" : String) ≠ "" := by
  refine ⟨by norm_num, ?_, by decide⟩
  norm_num [Mesh.createRoom, jsOrElse, Mesh.new]

/-- C7 (amended): `createRoom` always builds exactly four faces; with an
empty `wallColors` all four get `'#888'`; with fewer than 4 colors, all
of them non-empty, each missing wall color is the first supplied color
(an empty-string entry instead falls back like a missing one). -/
theorem createRoom_color_defaults :
    (∀ (w d : ℚ) (cs : List String), (Mesh.createRoom w d cs).faces.length = 4) ∧
    (∀ w d : ℚ,
        (Mesh.createRoom w d []).faces.map Face.color = ["#888", "#888", "#888", "#888"]) ∧
    (∀ (w d : ℚ) (c : String), c ≠ "" →
        (Mesh.createRoom w d [c]).faces.map Face.color = [c, c, c, c]) ∧
    (∀ (w d : ℚ) (c c2 : String), c ≠ "" → c2 ≠ "" →
        (Mesh.createRoom w d [c, c2]).faces.map Face.color = [c, c2, c, c]) ∧
    (∀ (w d : ℚ) (c c2 c3 : String), c ≠ "" → c2 ≠ "" → c3 ≠ "" →
        (Mesh.createRoom w d [c, c2, c3]).faces.map Face.color = [c, c2, c3, c]) := by
  refine ⟨fun w d cs => rfl, fun w d => by norm_num [Mesh.createRoom, jsOrElse, Mesh.new],
    ?_, ?_, ?_⟩
  · intro w d c hc
    simp [Mesh.createRoom, jsOrElse, Mesh.new, hc]
  · intro w d c c2 hc hc2
    simp [Mesh.createRoom, jsOrElse, Mesh.new, hc, hc2]
  · intro w d c c2 c3 hc hc2 hc3
    simp [Mesh.createRoom, jsOrElse, Mesh.new, hc, hc2, hc3]

/-- Witness for C7 (amended): one supplied non-empty color fills all
four walls. -/
theorem createRoom_color_defaults_witness :
    ("#abc" : String) ≠ "" ∧
    (Mesh.createRoom 2 3 ["#abc"]).faces.map Face.color =
      ["#abc", "#abc", "#abc", "#abc"] :=
  ⟨by decide, createRoom_color_defaults.2.2.1 2 3 "#abc" (by decide)⟩

theorem transformedFaces_map_eraseScale (T : Trig) (scene : List Mesh) (camera : Camera) :
    transformedFaces T (scene.map eraseScale) camera = transformedFaces T scene camera := by
  induction scene with
  | nil => rfl
  | cons m s ih =>
      simp only [transformedFaces, List.map_cons, List.flatMap_cons] at *
      rw [ih]
      rfl

/-- C8: the rendered output does not depend on any mesh's `scale` field —
two scenes that agree except for their `scale` values (their
`eraseScale` images coincide) produce identical draw calls. -/
theorem render_ignores_scale (T : Trig) (s1 s2 : List Mesh) (camera : Camera) (w h : ℚ)
    (hs : s1.map eraseScale = s2.map eraseScale) :
    render T s1 camera w h = render T s2 camera w h := by
  have ht : transformedFaces T s1 camera = transformedFaces T s2 camera := by
    rw [← transformedFaces_map_eraseScale T s1 camera,
      ← transformedFaces_map_eraseScale T s2 camera, hs]
  unfold render
  rw [ht]

/-- Witness for C8: the same wall with unit scale and with scale
`(2, 3, 4)` renders identically. -/
theorem render_ignores_scale_witness :
    ([wallRed] : List Mesh).map eraseScale =
      [{ wallRed with scale := ⟨2, 3, 4⟩ }].map eraseScale ∧
    render trigZero [wallRed] cam0 800 600 =
      render trigZero [{ wallRed with scale := ⟨2, 3, 4⟩ }] cam0 800 600 :=
  ⟨rfl, render_ignores_scale trigZero [wallRed] [{ wallRed with scale := ⟨2, 3, 4⟩ }]
    cam0 800 600 rfl⟩

/-- C9: when exactly one of the two view-space endpoints is behind the
near plane, the clip divisor `v2.z - v1.z` is nonzero, the parameter
`t = (NEAR_PLANE - v1.z) / (v2.z - v1.z)` lies in `[0, 1]`, and the
interpolated `x` lies between the two endpoints' `x` coordinates (the
clip point is on the original segment). -/
theorem clip_parameter_in_unit_interval (v1 v2 : Vector3)
    (h : (v1.z < NEAR_PLANE ∧ NEAR_PLANE ≤ v2.z) ∨
         (NEAR_PLANE ≤ v1.z ∧ v2.z < NEAR_PLANE)) :
    v2.z - v1.z ≠ 0 ∧
    0 ≤ (NEAR_PLANE - v1.z) / (v2.z - v1.z) ∧
    (NEAR_PLANE - v1.z) / (v2.z - v1.z) ≤ 1 ∧
    min v1.x v2.x ≤ lerp v1.x v2.x ((NEAR_PLANE - v1.z) / (v2.z - v1.z)) ∧
    lerp v1.x v2.x ((NEAR_PLANE - v1.z) / (v2.z - v1.z)) ≤ max v1.x v2.x := by
  have hNP : NEAR_PLANE = (1 : ℚ) := rfl
  have hbounds : v2.z - v1.z ≠ 0 ∧
      0 ≤ (NEAR_PLANE - v1.z) / (v2.z - v1.z) ∧
      (NEAR_PLANE - v1.z) / (v2.z - v1.z) ≤ 1 := by
    rcases h with ⟨h1, h2⟩ | ⟨h1, h2⟩
    · rw [hNP] at h1 h2 ⊢
      have hd : (0 : ℚ) < v2.z - v1.z := by linarith
      refine ⟨ne_of_gt hd, div_nonneg (by linarith) hd.le, ?_⟩
      rw [div_le_one hd]
      linarith
    · rw [hNP] at h1 h2 ⊢
      have hd : (0 : ℚ) < v1.z - v2.z := by linarith
      have hrw : (1 - v1.z) / (v2.z - v1.z) = (v1.z - 1) / (v1.z - v2.z) := by
        rw [show (1 : ℚ) - v1.z = -(v1.z - 1) by ring,
          show v2.z - v1.z = -(v1.z - v2.z) by ring, neg_div_neg_eq]
      refine ⟨?_, ?_, ?_⟩
      · intro hzero
        have : v1.z = v2.z := by linarith [sub_eq_zero.mp hzero]
        linarith
      · rw [hrw]
        exact div_nonneg (by linarith) hd.le
      · rw [hrw, div_le_one hd]
        linarith
  obtain ⟨hne, h0, h1'⟩ := hbounds
  obtain ⟨hmin, hmax⟩ := lerp_between v1.x v2.x _ h0 h1'
  exact ⟨hne, h0, h1', hmin, hmax⟩

/-- Witness for C9 at the spec's clip example (`v1.z = -10`,
`v2.z = 10`). -/
theorem clip_parameter_in_unit_interval_witness :
    ((⟨0, 0, -10⟩ : Vector3).z < NEAR_PLANE ∧ NEAR_PLANE ≤ (⟨20, 0, 10⟩ : Vector3).z) ∧
    (⟨20, 0, 10⟩ : Vector3).z - (⟨0, 0, -10⟩ : Vector3).z ≠ 0 ∧
    0 ≤ (NEAR_PLANE - (⟨0, 0, -10⟩ : Vector3).z) /
        ((⟨20, 0, 10⟩ : Vector3).z - (⟨0, 0, -10⟩ : Vector3).z) :=
  ⟨⟨by norm_num [NEAR_PLANE], by norm_num [NEAR_PLANE]⟩,
   (clip_parameter_in_unit_interval ⟨0, 0, -10⟩ ⟨20, 0, 10⟩
      (Or.inl ⟨by norm_num [NEAR_PLANE], by norm_num [NEAR_PLANE]⟩)).1,
   (clip_parameter_in_unit_interval ⟨0, 0, -10⟩ ⟨20, 0, 10⟩
      (Or.inl ⟨by norm_num [NEAR_PLANE], by norm_num [NEAR_PLANE]⟩)).2.1⟩

/-- C10: every draw call issued by `drawFace` with a centered screen
center `(w/2, h/2)` and positive focal length has both bottom (floor)
corners at or below the horizon `h/2` and both top (ceiling) corners at
or above it. -/
theorem drawFace_respects_horizon (face : RenderableFace) (fov w h : ℚ) (call : DrawCall)
    (hfov : 0 < fov) (hcall : drawFace face fov ⟨w / 2, h / 2⟩ = some call) :
    h / 2 ≤ call.p1Bottom.y ∧ h / 2 ≤ call.p2Bottom.y ∧
    call.p1Top.y ≤ h / 2 ∧ call.p2Top.y ≤ h / 2 := by
  unfold drawFace at hcall
  cases hc : clipEndpoints face.p1 face.p2 with
  | none =>
      rw [hc] at hcall
      exact Option.noConfusion hcall
  | some vv =>
      obtain ⟨v1, v2⟩ := vv
      rw [hc] at hcall
      simp only [Option.some.injEq] at hcall
      obtain ⟨hz1, hz2⟩ := clipEndpoints_z_ge hc
      subst hcall
      obtain ⟨hb1, ht1⟩ := project_y_bounds v1.x v1.z fov (w / 2) (h / 2) hz1 hfov
      obtain ⟨hb2, ht2⟩ := project_y_bounds v2.x v2.z fov (w / 2) (h / 2) hz2 hfov
      exact ⟨hb1, hb2, ht1, ht2⟩

/-- Witness for C10 at the concrete face `faceW` (depth 50, fov 400,
surface 800 × 600): its quad `callW` spans the horizon `300`. -/
theorem drawFace_respects_horizon_witness :
    (0 : ℚ) < 400 ∧ drawFace faceW 400 ⟨800 / 2, 600 / 2⟩ = some callW ∧
    (600 / 2 ≤ callW.p1Bottom.y ∧ 600 / 2 ≤ callW.p2Bottom.y ∧
     callW.p1Top.y ≤ 600 / 2 ∧ callW.p2Top.y ≤ 600 / 2) := by
  have hfov : (0 : ℚ) < 400 := by norm_num
  have hcall : drawFace faceW 400 ⟨800 / 2, 600 / 2⟩ = some callW := by
    norm_num [drawFace, clipEndpoints, faceW, callW, NEAR_PLANE, CEILING_Y, FLOOR_Y,
      lerp, Vector3.project, Vector3.safeZ]
  exact ⟨hfov, hcall, drawFace_respects_horizon faceW 400 800 600 callW hfov hcall⟩

end Scaffold
